import Mathlib

/-
Verification of the resource-resolution facade in
internal/kubernetes/client/client.go: typed fetch operations, the
GetTarget dynamic dispatch, the Get*FromPod owner resolvers and the
GetContainers helper. The cluster API client (client-go Clientset) is
modelled as an explicit record of per-kind read functions returning a
Go-style (pointer, error) pair, rendered as (Option object,
Option TransportError).
-/

namespace Falco

/-- Opaque cause of an underlying read failure (not found, forbidden,
transient network error); the facade never inspects it. -/
structure TransportError where
  code : Nat
  deriving DecidableEq

/-- One entry of a workload instance owner-reference list; the facade
reads only the Name field. -/
structure OwnerReference where
  name : String
  deriving DecidableEq

/-- One container declared on a pod specification; the facade reads only
its name. -/
structure Container where
  name : String
  deriving DecidableEq

/-- The pod specification fields read by the facade. -/
structure PodSpec where
  containers : List Container
  deriving DecidableEq

/-- A pod object, restricted to the fields the facade reads:
OwnerReferences, ObjectMeta.Namespace (field ns) and Spec.Containers. -/
structure Pod where
  ownerReferences : List OwnerReference
  ns : String
  spec : PodSpec
  deriving DecidableEq

/-- A deployment object, opaque to the facade. -/
structure Deployment where
  uid : Nat
  deriving DecidableEq

/-- A daemonset object, opaque to the facade. -/
structure DaemonSet where
  uid : Nat
  deriving DecidableEq

/-- A statefulset object, opaque to the facade. -/
structure StatefulSet where
  uid : Nat
  deriving DecidableEq

/-- A replicaset object, opaque to the facade. -/
structure ReplicaSet where
  uid : Nat
  deriving DecidableEq

/-- A namespace object, opaque to the facade. -/
structure Namespace where
  uid : Nat
  deriving DecidableEq

/-- A configmap object, opaque to the facade. -/
structure ConfigMap where
  uid : Nat
  deriving DecidableEq

/-- A secret object, opaque to the facade. -/
structure Secret where
  uid : Nat
  deriving DecidableEq

/-- A service object, opaque to the facade. -/
structure Service where
  uid : Nat
  deriving DecidableEq

/-- A serviceaccount object, opaque to the facade. -/
structure ServiceAccount where
  uid : Nat
  deriving DecidableEq

/-- A role object, opaque to the facade. -/
structure Role where
  uid : Nat
  deriving DecidableEq

/-- A clusterrole object, opaque to the facade. -/
structure ClusterRole where
  uid : Nat
  deriving DecidableEq

/-- The errors the facade constructs. The Go code builds them with
fmt.Errorf / errors.New; the constructors record the construction sites
and the arguments interpolated there, and Err.message below renders the
exact Go format strings. notFound kind name nso is produced by a typed
fetch when the underlying read fails (nso = none for GetNamespace, which
omits the namespace clause); unsupported is the errors.New value at the
end of GetTarget; ownerNotFound kind pod nsv is the defensive error of
the Get*FromPod resolvers. -/
inductive Err where
  | notFound (kind : String) (name : String) (nso : Option String)
  | unsupported
  | ownerNotFound (kind : String) (pod : Pod) (nsv : String)
  deriving DecidableEq

/-- Stand-in for the Go percent-v rendering of a pod value inside the
defensive owner-resolution error; the exact layout is immaterial to
every property proved here. -/
def Pod.render (p : Pod) : String :=
  String.intercalate " " (p.ownerReferences.map OwnerReference.name) ++ " " ++ p.ns

/-- Renders each error the way the Go format strings do. The apostrophe
is written as the escape x27 throughout. -/
def Err.message : Err → String
  | .notFound kind name (some nsv) =>
      "the " ++ kind ++ " \x27" ++ name ++ "\x27 in the namespace \x27" ++ nsv
        ++ "\x27 doesn\x27t exist"
  | .notFound kind name none =>
      "the " ++ kind ++ " \x27" ++ name ++ "\x27 doesn\x27t exist"
  | .unsupported =>
      "the resource doesn\x27t exist or its type is not yet managed"
  | .ownerNotFound kind pod nsv =>
      "can\x27t find the " ++ kind ++ " for the pod\x27" ++ Pod.render pod
        ++ "\x27 in namespace \x27" ++ nsv ++ "\x27"

/-- The narrow contract of the client-go Clientset the facade uses: one
read function per kind, taking namespace then name (cluster-scoped kinds
take only the name) and returning a Go (pointer, error) pair. -/
structure Clientset where
  pods : String → String → Option Pod × Option TransportError
  deployments : String → String → Option Deployment × Option TransportError
  daemonSets : String → String → Option DaemonSet × Option TransportError
  statefulSets : String → String → Option StatefulSet × Option TransportError
  replicaSets : String → String → Option ReplicaSet × Option TransportError
  namespaces : String → Option Namespace × Option TransportError
  configMaps : String → String → Option ConfigMap × Option TransportError
  secrets : String → String → Option Secret × Option TransportError
  services : String → String → Option Service × Option TransportError
  serviceAccounts : String → String → Option ServiceAccount × Option TransportError
  roles : String → String → Option Role × Option TransportError
  clusterRoles : String → Option ClusterRole × Option TransportError

/-- The facade Client, holding the Clientset session handle. -/
structure Client where
  clientset : Clientset

/-- GetPod: one read of CoreV1().Pods(namespace).Get(pod); on failure a
flattened notFound error. -/
def Client.GetPod (client : Client) (pod ns : String) : Option Pod × Option Err :=
  match client.clientset.pods ns pod with
  | (_, some _) => (none, some (Err.notFound "pod" pod (some ns)))
  | (p, none) => (p, none)

/-- GetContainers: the ordered container names of the pod specification,
built by the same append loop as the Go code. -/
def GetContainers (pod : Pod) : List String :=
  pod.spec.containers.foldl (fun c i => c ++ [i.name]) []

/-- GetDeployment: one read of AppsV1().Deployments(namespace).Get(name). -/
def Client.GetDeployment (client : Client) (name ns : String) :
    Option Deployment × Option Err :=
  match client.clientset.deployments ns name with
  | (_, some _) => (none, some (Err.notFound "deployment" name (some ns)))
  | (p, none) => (p, none)

/-- GetDaemonSet: one read of AppsV1().DaemonSets(namespace).Get(name). -/
def Client.GetDaemonSet (client : Client) (name ns : String) :
    Option DaemonSet × Option Err :=
  match client.clientset.daemonSets ns name with
  | (_, some _) => (none, some (Err.notFound "daemonset" name (some ns)))
  | (p, none) => (p, none)

/-- GetStatefulSet: one read of AppsV1().StatefulSets(namespace).Get(name). -/
def Client.GetStatefulSet (client : Client) (name ns : String) :
    Option StatefulSet × Option Err :=
  match client.clientset.statefulSets ns name with
  | (_, some _) => (none, some (Err.notFound "statefulset" name (some ns)))
  | (p, none) => (p, none)

/-- GetReplicaSet: one read of AppsV1().ReplicaSets(namespace).Get(name). -/
def Client.GetReplicaSet (client : Client) (name ns : String) :
    Option ReplicaSet × Option Err :=
  match client.clientset.replicaSets ns name with
  | (_, some _) => (none, some (Err.notFound "replicaset" name (some ns)))
  | (p, none) => (p, none)

/-- GetNamespace: one read of CoreV1().Namespaces().Get(name); the error
message omits the namespace clause. -/
def Client.GetNamespace (client : Client) (name : String) :
    Option Namespace × Option Err :=
  match client.clientset.namespaces name with
  | (_, some _) => (none, some (Err.notFound "namespace" name none))
  | (p, none) => (p, none)

/-- GetConfigMap: one read of CoreV1().ConfigMaps(namespace).Get(name). -/
def Client.GetConfigMap (client : Client) (name ns : String) :
    Option ConfigMap × Option Err :=
  match client.clientset.configMaps ns name with
  | (_, some _) => (none, some (Err.notFound "configmap" name (some ns)))
  | (p, none) => (p, none)

/-- GetSecret: one read of CoreV1().Secrets(namespace).Get(name). -/
def Client.GetSecret (client : Client) (name ns : String) :
    Option Secret × Option Err :=
  match client.clientset.secrets ns name with
  | (_, some _) => (none, some (Err.notFound "secret" name (some ns)))
  | (p, none) => (p, none)

/-- GetService: one read of CoreV1().Services(namespace).Get(name). -/
def Client.GetService (client : Client) (name ns : String) :
    Option Service × Option Err :=
  match client.clientset.services ns name with
  | (_, some _) => (none, some (Err.notFound "service" name (some ns)))
  | (p, none) => (p, none)

/-- GetServiceAccount: one read of
CoreV1().ServiceAccounts(namespace).Get(name). -/
def Client.GetServiceAccount (client : Client) (name ns : String) :
    Option ServiceAccount × Option Err :=
  match client.clientset.serviceAccounts ns name with
  | (_, some _) => (none, some (Err.notFound "serviceaccount" name (some ns)))
  | (p, none) => (p, none)

/-- GetRole: one read of RbacV1().Roles(namespace).Get(name). -/
def Client.GetRole (client : Client) (name ns : String) :
    Option Role × Option Err :=
  match client.clientset.roles ns name with
  | (_, some _) => (none, some (Err.notFound "role" name (some ns)))
  | (p, none) => (p, none)

/-- GetClusterRole: one read of RbacV1().ClusterRoles().Get(name) — the
namespace argument is ignored by the read, yet the Go error message
interpolates it, so it is kept in the notFound error. -/
def Client.GetClusterRole (client : Client) (name ns : String) :
    Option ClusterRole × Option Err :=
  match client.clientset.clusterRoles name with
  | (_, some _) => (none, some (Err.notFound "clusterrole" name (some ns)))
  | (p, none) => (p, none)

/-- The type-erased result of GetTarget: the Go interface value holding
one of the fetched kinds. -/
inductive KObj where
  | namespaceK : Namespace → KObj
  | configMapK : ConfigMap → KObj
  | secretK : Secret → KObj
  | deploymentK : Deployment → KObj
  | daemonSetK : DaemonSet → KObj
  | statefulSetK : StatefulSet → KObj
  | replicaSetK : ReplicaSet → KObj
  | serviceK : Service → KObj
  | serviceAccountK : ServiceAccount → KObj
  | roleK : Role → KObj
  | clusterRoleK : ClusterRole → KObj
  deriving DecidableEq

/-- GetTarget: dispatch on the resource-type tag to the matching typed
fetch, erasing the result; note the daemonsets case calls GetDeployment,
exactly as the Go switch does. An unlisted tag yields the errors.New
unsupported value with no session read. -/
def Client.GetTarget (client : Client) (resource name ns : String) :
    Option KObj × Option Err :=
  match resource with
  | "namespaces" =>
      let r := client.GetNamespace name
      (r.1.map KObj.namespaceK, r.2)
  | "configmaps" =>
      let r := client.GetConfigMap name ns
      (r.1.map KObj.configMapK, r.2)
  | "secrets" =>
      let r := client.GetSecret name ns
      (r.1.map KObj.secretK, r.2)
  | "deployments" =>
      let r := client.GetDeployment name ns
      (r.1.map KObj.deploymentK, r.2)
  | "daemonsets" =>
      let r := client.GetDeployment name ns
      (r.1.map KObj.deploymentK, r.2)
  | "statefulsets" =>
      let r := client.GetStatefulSet name ns
      (r.1.map KObj.statefulSetK, r.2)
  | "replicasets" =>
      let r := client.GetReplicaSet name ns
      (r.1.map KObj.replicaSetK, r.2)
  | "services" =>
      let r := client.GetService name ns
      (r.1.map KObj.serviceK, r.2)
  | "serviceaccounts" =>
      let r := client.GetServiceAccount name ns
      (r.1.map KObj.serviceAccountK, r.2)
  | "roles" =>
      let r := client.GetRole name ns
      (r.1.map KObj.roleK, r.2)
  | "clusterroles" =>
      let r := client.GetClusterRole name ns
      (r.1.map KObj.clusterRoleK, r.2)
  | _ => (none, some Err.unsupported)

/-- GetDeploymentFromPod: read OwnerReferences index 0 (the Go access is
unchecked; here the non-emptiness precondition is an explicit argument)
and the pod namespace, fetch the deployment, propagate a fetch error
unchanged, and guard a nil result with the defensive ownerNotFound
error. -/
def Client.GetDeploymentFromPod (client : Client) (pod : Pod)
    (h : pod.ownerReferences ≠ []) : Option Deployment × Option Err :=
  match client.GetDeployment (pod.ownerReferences.head h).name pod.ns with
  | (_, some e) => (none, some e)
  | (none, none) => (none, some (Err.ownerNotFound "deployment" pod pod.ns))
  | (some r, none) => (some r, none)

/-- GetDaemonsetFromPod: same shape as GetDeploymentFromPod, over
GetDaemonSet. -/
def Client.GetDaemonsetFromPod (client : Client) (pod : Pod)
    (h : pod.ownerReferences ≠ []) : Option DaemonSet × Option Err :=
  match client.GetDaemonSet (pod.ownerReferences.head h).name pod.ns with
  | (_, some e) => (none, some e)
  | (none, none) => (none, some (Err.ownerNotFound "daemonset" pod pod.ns))
  | (some r, none) => (some r, none)

/-- GetStatefulsetFromPod: same shape as GetDeploymentFromPod, over
GetStatefulSet. -/
def Client.GetStatefulsetFromPod (client : Client) (pod : Pod)
    (h : pod.ownerReferences ≠ []) : Option StatefulSet × Option Err :=
  match client.GetStatefulSet (pod.ownerReferences.head h).name pod.ns with
  | (_, some e) => (none, some e)
  | (none, none) => (none, some (Err.ownerNotFound "statefulset" pod pod.ns))
  | (some r, none) => (some r, none)

/-- GetReplicasetFromPod: same shape as GetDeploymentFromPod, over
GetReplicaSet. -/
def Client.GetReplicasetFromPod (client : Client) (pod : Pod)
    (h : pod.ownerReferences ≠ []) : Option ReplicaSet × Option Err :=
  match client.GetReplicaSet (pod.ownerReferences.head h).name pod.ns with
  | (_, some e) => (none, some e)
  | (none, none) => (none, some (Err.ownerNotFound "replicaset" pod pod.ns))
  | (some r, none) => (some r, none)

/-- The client-go contract that a read which reports no error yields a
non-nil object, stated for every store of the session. -/
def Clientset.Lawful (cs : Clientset) : Prop :=
  (∀ a b, (cs.pods a b).2 = none → (cs.pods a b).1.isSome) ∧
  (∀ a b, (cs.deployments a b).2 = none → (cs.deployments a b).1.isSome) ∧
  (∀ a b, (cs.daemonSets a b).2 = none → (cs.daemonSets a b).1.isSome) ∧
  (∀ a b, (cs.statefulSets a b).2 = none → (cs.statefulSets a b).1.isSome) ∧
  (∀ a b, (cs.replicaSets a b).2 = none → (cs.replicaSets a b).1.isSome) ∧
  (∀ a, (cs.namespaces a).2 = none → (cs.namespaces a).1.isSome) ∧
  (∀ a b, (cs.configMaps a b).2 = none → (cs.configMaps a b).1.isSome) ∧
  (∀ a b, (cs.secrets a b).2 = none → (cs.secrets a b).1.isSome) ∧
  (∀ a b, (cs.services a b).2 = none → (cs.services a b).1.isSome) ∧
  (∀ a b, (cs.serviceAccounts a b).2 = none → (cs.serviceAccounts a b).1.isSome) ∧
  (∀ a b, (cs.roles a b).2 = none → (cs.roles a b).1.isSome) ∧
  (∀ a, (cs.clusterRoles a).2 = none → (cs.clusterRoles a).1.isSome)

/-- The outcome contract of a typed fetch: either a present object with
no error, or no object with an error — never both, never neither. -/
def ExactlyOne {α : Type} (r : Option α × Option Err) : Prop :=
  (r.1.isSome ∧ r.2 = none) ∨ (r.1 = none ∧ r.2.isSome)

/-- A concrete session in which every read succeeds with a fixed object. -/
def okClient : Client :=
  ⟨{ pods := fun _ _ => (some ⟨[⟨"rs-1"⟩], "ns1", ⟨[⟨"app"⟩]⟩⟩, none)
     deployments := fun _ _ => (some ⟨1⟩, none)
     daemonSets := fun _ _ => (some ⟨2⟩, none)
     statefulSets := fun _ _ => (some ⟨3⟩, none)
     replicaSets := fun _ _ => (some ⟨4⟩, none)
     namespaces := fun _ => (some ⟨5⟩, none)
     configMaps := fun _ _ => (some ⟨6⟩, none)
     secrets := fun _ _ => (some ⟨7⟩, none)
     services := fun _ _ => (some ⟨8⟩, none)
     serviceAccounts := fun _ _ => (some ⟨9⟩, none)
     roles := fun _ _ => (some ⟨10⟩, none)
     clusterRoles := fun _ => (some ⟨11⟩, none) }⟩

/-- A concrete session in which every read fails with a transport error. -/
def errClient : Client :=
  ⟨{ pods := fun _ _ => (none, some ⟨42⟩)
     deployments := fun _ _ => (none, some ⟨42⟩)
     daemonSets := fun _ _ => (none, some ⟨42⟩)
     statefulSets := fun _ _ => (none, some ⟨42⟩)
     replicaSets := fun _ _ => (none, some ⟨42⟩)
     namespaces := fun _ => (none, some ⟨42⟩)
     configMaps := fun _ _ => (none, some ⟨42⟩)
     secrets := fun _ _ => (none, some ⟨42⟩)
     services := fun _ _ => (none, some ⟨42⟩)
     serviceAccounts := fun _ _ => (none, some ⟨42⟩)
     roles := fun _ _ => (none, some ⟨42⟩)
     clusterRoles := fun _ => (none, some ⟨42⟩) }⟩

/-- A concrete session holding a daemonset named web in ns1 while the
deployments store fails: exhibits the daemonsets dispatch quirk. -/
def daemonQuirkClient : Client :=
  ⟨{ pods := fun _ _ => (none, some ⟨42⟩)
     deployments := fun _ _ => (none, some ⟨42⟩)
     daemonSets := fun a b => if a = "ns1" ∧ b = "web" then (some ⟨77⟩, none) else (none, some ⟨42⟩)
     statefulSets := fun _ _ => (none, some ⟨42⟩)
     replicaSets := fun _ _ => (none, some ⟨42⟩)
     namespaces := fun _ => (none, some ⟨42⟩)
     configMaps := fun _ _ => (none, some ⟨42⟩)
     secrets := fun _ _ => (none, some ⟨42⟩)
     services := fun _ _ => (none, some ⟨42⟩)
     serviceAccounts := fun _ _ => (none, some ⟨42⟩)
     roles := fun _ _ => (none, some ⟨42⟩)
     clusterRoles := fun _ => (none, some ⟨42⟩) }⟩

/-- A concrete workload instance owned by rs-1 in ns1 with two containers. -/
def podA : Pod := ⟨[⟨"rs-1"⟩], "ns1", ⟨[⟨"app"⟩, ⟨"sidecar"⟩]⟩⟩

/-- A concrete workload instance sharing the first owner reference and
namespace of podA but carrying a second owner reference and no
containers. -/
def podB : Pod := ⟨[⟨"rs-1"⟩, ⟨"extra"⟩], "ns1", ⟨[]⟩⟩

/-- Helper: GetPod on a successful underlying read. -/
theorem getPod_ok (c : Client) (n v : String) (o : Pod)
    (h : c.clientset.pods v n = (some o, none)) : c.GetPod n v = (some o, none) := by
  unfold Client.GetPod
  rw [h]

/-- Helper: GetPod on a failed underlying read. -/
theorem getPod_err (c : Client) (n v : String) (p : Option Pod) (t : TransportError)
    (h : c.clientset.pods v n = (p, some t)) :
    c.GetPod n v = (none, some (Err.notFound "pod" n (some v))) := by
  unfold Client.GetPod
  rw [h]

/-- Helper: GetPod meets the exactly-one-outcome contract on a lawful session. -/
theorem getPod_one (c : Client) (n v : String) (hL : c.clientset.Lawful) :
    ExactlyOne (c.GetPod n v) := by
  have h := hL.1 v n
  unfold ExactlyOne Client.GetPod
  rcases hs : c.clientset.pods v n with ⟨p, t⟩
  rw [hs] at h
  cases t with
  | none => exact Or.inl ⟨h rfl, rfl⟩
  | some tv => exact Or.inr ⟨rfl, rfl⟩

/-- Helper: GetDeployment on a successful underlying read. -/
theorem getDeployment_ok (c : Client) (n v : String) (o : Deployment)
    (h : c.clientset.deployments v n = (some o, none)) :
    c.GetDeployment n v = (some o, none) := by
  unfold Client.GetDeployment
  rw [h]

/-- Helper: GetDeployment on a failed underlying read. -/
theorem getDeployment_err (c : Client) (n v : String) (p : Option Deployment)
    (t : TransportError) (h : c.clientset.deployments v n = (p, some t)) :
    c.GetDeployment n v = (none, some (Err.notFound "deployment" n (some v))) := by
  unfold Client.GetDeployment
  rw [h]

/-- Helper: GetDeployment meets the exactly-one-outcome contract on a lawful
session. -/
theorem getDeployment_one (c : Client) (n v : String) (hL : c.clientset.Lawful) :
    ExactlyOne (c.GetDeployment n v) := by
  have h := hL.2.1 v n
  unfold ExactlyOne Client.GetDeployment
  rcases hs : c.clientset.deployments v n with ⟨p, t⟩
  rw [hs] at h
  cases t with
  | none => exact Or.inl ⟨h rfl, rfl⟩
  | some tv => exact Or.inr ⟨rfl, rfl⟩

/-- Helper: every error GetDeployment returns is the deployment notFound
error for its arguments. -/
theorem getDeployment_err_inv (c : Client) (n v : String) (e : Err)
    (h : (c.GetDeployment n v).2 = some e) :
    c.GetDeployment n v = (none, some e) ∧ e = Err.notFound "deployment" n (some v) := by
  unfold Client.GetDeployment at h ⊢
  rcases hs : c.clientset.deployments v n with ⟨p, t⟩
  rw [hs] at h
  cases t with
  | none => simp at h
  | some tv =>
      simp only [Option.some.injEq] at h
      exact ⟨by rw [← h], h.symm⟩

/-- Helper: GetDaemonSet on a successful underlying read. -/
theorem getDaemonSet_ok (c : Client) (n v : String) (o : DaemonSet)
    (h : c.clientset.daemonSets v n = (some o, none)) :
    c.GetDaemonSet n v = (some o, none) := by
  unfold Client.GetDaemonSet
  rw [h]

/-- Helper: GetDaemonSet on a failed underlying read. -/
theorem getDaemonSet_err (c : Client) (n v : String) (p : Option DaemonSet)
    (t : TransportError) (h : c.clientset.daemonSets v n = (p, some t)) :
    c.GetDaemonSet n v = (none, some (Err.notFound "daemonset" n (some v))) := by
  unfold Client.GetDaemonSet
  rw [h]

/-- Helper: GetDaemonSet meets the exactly-one-outcome contract on a lawful
session. -/
theorem getDaemonSet_one (c : Client) (n v : String) (hL : c.clientset.Lawful) :
    ExactlyOne (c.GetDaemonSet n v) := by
  have h := hL.2.2.1 v n
  unfold ExactlyOne Client.GetDaemonSet
  rcases hs : c.clientset.daemonSets v n with ⟨p, t⟩
  rw [hs] at h
  cases t with
  | none => exact Or.inl ⟨h rfl, rfl⟩
  | some tv => exact Or.inr ⟨rfl, rfl⟩

/-- Helper: every error GetDaemonSet returns is the daemonset notFound
error for its arguments. -/
theorem getDaemonSet_err_inv (c : Client) (n v : String) (e : Err)
    (h : (c.GetDaemonSet n v).2 = some e) :
    c.GetDaemonSet n v = (none, some e) ∧ e = Err.notFound "daemonset" n (some v) := by
  unfold Client.GetDaemonSet at h ⊢
  rcases hs : c.clientset.daemonSets v n with ⟨p, t⟩
  rw [hs] at h
  cases t with
  | none => simp at h
  | some tv =>
      simp only [Option.some.injEq] at h
      exact ⟨by rw [← h], h.symm⟩

/-- Helper: GetStatefulSet on a successful underlying read. -/
theorem getStatefulSet_ok (c : Client) (n v : String) (o : StatefulSet)
    (h : c.clientset.statefulSets v n = (some o, none)) :
    c.GetStatefulSet n v = (some o, none) := by
  unfold Client.GetStatefulSet
  rw [h]

/-- Helper: GetStatefulSet on a failed underlying read. -/
theorem getStatefulSet_err (c : Client) (n v : String) (p : Option StatefulSet)
    (t : TransportError) (h : c.clientset.statefulSets v n = (p, some t)) :
    c.GetStatefulSet n v = (none, some (Err.notFound "statefulset" n (some v))) := by
  unfold Client.GetStatefulSet
  rw [h]

/-- Helper: GetStatefulSet meets the exactly-one-outcome contract on a lawful
session. -/
theorem getStatefulSet_one (c : Client) (n v : String) (hL : c.clientset.Lawful) :
    ExactlyOne (c.GetStatefulSet n v) := by
  have h := hL.2.2.2.1 v n
  unfold ExactlyOne Client.GetStatefulSet
  rcases hs : c.clientset.statefulSets v n with ⟨p, t⟩
  rw [hs] at h
  cases t with
  | none => exact Or.inl ⟨h rfl, rfl⟩
  | some tv => exact Or.inr ⟨rfl, rfl⟩

/-- Helper: every error GetStatefulSet returns is the statefulset notFound
error for its arguments. -/
theorem getStatefulSet_err_inv (c : Client) (n v : String) (e : Err)
    (h : (c.GetStatefulSet n v).2 = some e) :
    c.GetStatefulSet n v = (none, some e) ∧ e = Err.notFound "statefulset" n (some v) := by
  unfold Client.GetStatefulSet at h ⊢
  rcases hs : c.clientset.statefulSets v n with ⟨p, t⟩
  rw [hs] at h
  cases t with
  | none => simp at h
  | some tv =>
      simp only [Option.some.injEq] at h
      exact ⟨by rw [← h], h.symm⟩

/-- Helper: GetReplicaSet on a successful underlying read. -/
theorem getReplicaSet_ok (c : Client) (n v : String) (o : ReplicaSet)
    (h : c.clientset.replicaSets v n = (some o, none)) :
    c.GetReplicaSet n v = (some o, none) := by
  unfold Client.GetReplicaSet
  rw [h]

/-- Helper: GetReplicaSet on a failed underlying read. -/
theorem getReplicaSet_err (c : Client) (n v : String) (p : Option ReplicaSet)
    (t : TransportError) (h : c.clientset.replicaSets v n = (p, some t)) :
    c.GetReplicaSet n v = (none, some (Err.notFound "replicaset" n (some v))) := by
  unfold Client.GetReplicaSet
  rw [h]

/-- Helper: GetReplicaSet meets the exactly-one-outcome contract on a lawful
session. -/
theorem getReplicaSet_one (c : Client) (n v : String) (hL : c.clientset.Lawful) :
    ExactlyOne (c.GetReplicaSet n v) := by
  have h := hL.2.2.2.2.1 v n
  unfold ExactlyOne Client.GetReplicaSet
  rcases hs : c.clientset.replicaSets v n with ⟨p, t⟩
  rw [hs] at h
  cases t with
  | none => exact Or.inl ⟨h rfl, rfl⟩
  | some tv => exact Or.inr ⟨rfl, rfl⟩

/-- Helper: every error GetReplicaSet returns is the replicaset notFound
error for its arguments. -/
theorem getReplicaSet_err_inv (c : Client) (n v : String) (e : Err)
    (h : (c.GetReplicaSet n v).2 = some e) :
    c.GetReplicaSet n v = (none, some e) ∧ e = Err.notFound "replicaset" n (some v) := by
  unfold Client.GetReplicaSet at h ⊢
  rcases hs : c.clientset.replicaSets v n with ⟨p, t⟩
  rw [hs] at h
  cases t with
  | none => simp at h
  | some tv =>
      simp only [Option.some.injEq] at h
      exact ⟨by rw [← h], h.symm⟩

/-- Helper: GetNamespace on a successful underlying read. -/
theorem getNamespace_ok (c : Client) (n : String) (o : Namespace)
    (h : c.clientset.namespaces n = (some o, none)) :
    c.GetNamespace n = (some o, none) := by
  unfold Client.GetNamespace
  rw [h]

/-- Helper: GetNamespace on a failed underlying read. -/
theorem getNamespace_err (c : Client) (n : String) (p : Option Namespace)
    (t : TransportError) (h : c.clientset.namespaces n = (p, some t)) :
    c.GetNamespace n = (none, some (Err.notFound "namespace" n none)) := by
  unfold Client.GetNamespace
  rw [h]

/-- Helper: GetNamespace meets the exactly-one-outcome contract on a lawful
session. -/
theorem getNamespace_one (c : Client) (n : String) (hL : c.clientset.Lawful) :
    ExactlyOne (c.GetNamespace n) := by
  have h := hL.2.2.2.2.2.1 n
  unfold ExactlyOne Client.GetNamespace
  rcases hs : c.clientset.namespaces n with ⟨p, t⟩
  rw [hs] at h
  cases t with
  | none => exact Or.inl ⟨h rfl, rfl⟩
  | some tv => exact Or.inr ⟨rfl, rfl⟩

/-- Helper: GetConfigMap on a successful underlying read. -/
theorem getConfigMap_ok (c : Client) (n v : String) (o : ConfigMap)
    (h : c.clientset.configMaps v n = (some o, none)) :
    c.GetConfigMap n v = (some o, none) := by
  unfold Client.GetConfigMap
  rw [h]

/-- Helper: GetConfigMap on a failed underlying read. -/
theorem getConfigMap_err (c : Client) (n v : String) (p : Option ConfigMap)
    (t : TransportError) (h : c.clientset.configMaps v n = (p, some t)) :
    c.GetConfigMap n v = (none, some (Err.notFound "configmap" n (some v))) := by
  unfold Client.GetConfigMap
  rw [h]

/-- Helper: GetConfigMap meets the exactly-one-outcome contract on a lawful
session. -/
theorem getConfigMap_one (c : Client) (n v : String) (hL : c.clientset.Lawful) :
    ExactlyOne (c.GetConfigMap n v) := by
  have h := hL.2.2.2.2.2.2.1 v n
  unfold ExactlyOne Client.GetConfigMap
  rcases hs : c.clientset.configMaps v n with ⟨p, t⟩
  rw [hs] at h
  cases t with
  | none => exact Or.inl ⟨h rfl, rfl⟩
  | some tv => exact Or.inr ⟨rfl, rfl⟩

/-- Helper: GetSecret on a successful underlying read. -/
theorem getSecret_ok (c : Client) (n v : String) (o : Secret)
    (h : c.clientset.secrets v n = (some o, none)) :
    c.GetSecret n v = (some o, none) := by
  unfold Client.GetSecret
  rw [h]

/-- Helper: GetSecret on a failed underlying read. -/
theorem getSecret_err (c : Client) (n v : String) (p : Option Secret)
    (t : TransportError) (h : c.clientset.secrets v n = (p, some t)) :
    c.GetSecret n v = (none, some (Err.notFound "secret" n (some v))) := by
  unfold Client.GetSecret
  rw [h]

/-- Helper: GetSecret meets the exactly-one-outcome contract on a lawful
session. -/
theorem getSecret_one (c : Client) (n v : String) (hL : c.clientset.Lawful) :
    ExactlyOne (c.GetSecret n v) := by
  have h := hL.2.2.2.2.2.2.2.1 v n
  unfold ExactlyOne Client.GetSecret
  rcases hs : c.clientset.secrets v n with ⟨p, t⟩
  rw [hs] at h
  cases t with
  | none => exact Or.inl ⟨h rfl, rfl⟩
  | some tv => exact Or.inr ⟨rfl, rfl⟩

/-- Helper: GetService on a successful underlying read. -/
theorem getService_ok (c : Client) (n v : String) (o : Service)
    (h : c.clientset.services v n = (some o, none)) :
    c.GetService n v = (some o, none) := by
  unfold Client.GetService
  rw [h]

/-- Helper: GetService on a failed underlying read. -/
theorem getService_err (c : Client) (n v : String) (p : Option Service)
    (t : TransportError) (h : c.clientset.services v n = (p, some t)) :
    c.GetService n v = (none, some (Err.notFound "service" n (some v))) := by
  unfold Client.GetService
  rw [h]

/-- Helper: GetService meets the exactly-one-outcome contract on a lawful
session. -/
theorem getService_one (c : Client) (n v : String) (hL : c.clientset.Lawful) :
    ExactlyOne (c.GetService n v) := by
  have h := hL.2.2.2.2.2.2.2.2.1 v n
  unfold ExactlyOne Client.GetService
  rcases hs : c.clientset.services v n with ⟨p, t⟩
  rw [hs] at h
  cases t with
  | none => exact Or.inl ⟨h rfl, rfl⟩
  | some tv => exact Or.inr ⟨rfl, rfl⟩

/-- Helper: GetServiceAccount on a successful underlying read. -/
theorem getServiceAccount_ok (c : Client) (n v : String) (o : ServiceAccount)
    (h : c.clientset.serviceAccounts v n = (some o, none)) :
    c.GetServiceAccount n v = (some o, none) := by
  unfold Client.GetServiceAccount
  rw [h]

/-- Helper: GetServiceAccount on a failed underlying read. -/
theorem getServiceAccount_err (c : Client) (n v : String) (p : Option ServiceAccount)
    (t : TransportError) (h : c.clientset.serviceAccounts v n = (p, some t)) :
    c.GetServiceAccount n v = (none, some (Err.notFound "serviceaccount" n (some v))) := by
  unfold Client.GetServiceAccount
  rw [h]

/-- Helper: GetServiceAccount meets the exactly-one-outcome contract on a
lawful session. -/
theorem getServiceAccount_one (c : Client) (n v : String) (hL : c.clientset.Lawful) :
    ExactlyOne (c.GetServiceAccount n v) := by
  have h := hL.2.2.2.2.2.2.2.2.2.1 v n
  unfold ExactlyOne Client.GetServiceAccount
  rcases hs : c.clientset.serviceAccounts v n with ⟨p, t⟩
  rw [hs] at h
  cases t with
  | none => exact Or.inl ⟨h rfl, rfl⟩
  | some tv => exact Or.inr ⟨rfl, rfl⟩

/-- Helper: GetRole on a successful underlying read. -/
theorem getRole_ok (c : Client) (n v : String) (o : Role)
    (h : c.clientset.roles v n = (some o, none)) :
    c.GetRole n v = (some o, none) := by
  unfold Client.GetRole
  rw [h]

/-- Helper: GetRole on a failed underlying read. -/
theorem getRole_err (c : Client) (n v : String) (p : Option Role)
    (t : TransportError) (h : c.clientset.roles v n = (p, some t)) :
    c.GetRole n v = (none, some (Err.notFound "role" n (some v))) := by
  unfold Client.GetRole
  rw [h]

/-- Helper: GetRole meets the exactly-one-outcome contract on a lawful
session. -/
theorem getRole_one (c : Client) (n v : String) (hL : c.clientset.Lawful) :
    ExactlyOne (c.GetRole n v) := by
  have h := hL.2.2.2.2.2.2.2.2.2.2.1 v n
  unfold ExactlyOne Client.GetRole
  rcases hs : c.clientset.roles v n with ⟨p, t⟩
  rw [hs] at h
  cases t with
  | none => exact Or.inl ⟨h rfl, rfl⟩
  | some tv => exact Or.inr ⟨rfl, rfl⟩

/-- Helper: GetClusterRole on a successful underlying read; the namespace
argument is not consulted. -/
theorem getClusterRole_ok (c : Client) (n v : String) (o : ClusterRole)
    (h : c.clientset.clusterRoles n = (some o, none)) :
    c.GetClusterRole n v = (some o, none) := by
  unfold Client.GetClusterRole
  rw [h]

/-- Helper: GetClusterRole on a failed underlying read; the supplied
namespace is interpolated into the error. -/
theorem getClusterRole_err (c : Client) (n v : String) (p : Option ClusterRole)
    (t : TransportError) (h : c.clientset.clusterRoles n = (p, some t)) :
    c.GetClusterRole n v = (none, some (Err.notFound "clusterrole" n (some v))) := by
  unfold Client.GetClusterRole
  rw [h]

/-- Helper: GetClusterRole meets the exactly-one-outcome contract on a
lawful session. -/
theorem getClusterRole_one (c : Client) (n v : String) (hL : c.clientset.Lawful) :
    ExactlyOne (c.GetClusterRole n v) := by
  have h := hL.2.2.2.2.2.2.2.2.2.2.2 n
  unfold ExactlyOne Client.GetClusterRole
  rcases hs : c.clientset.clusterRoles n with ⟨p, t⟩
  rw [hs] at h
  cases t with
  | none => exact Or.inl ⟨h rfl, rfl⟩
  | some tv => exact Or.inr ⟨rfl, rfl⟩

/-- Helper: the all-success session meets the lawful-session contract. -/
theorem okClient_lawful : okClient.clientset.Lawful := by
  unfold Clientset.Lawful
  refine ⟨?_, ?_, ?_, ?_, ?_, ?_, ?_, ?_, ?_, ?_, ?_, ?_⟩ <;> intros <;> rfl

/-- Helper: the all-failure session meets the lawful-session contract
vacuously, since every read there reports a transport error. -/
theorem errClient_lawful : errClient.clientset.Lawful := by
  unfold Clientset.Lawful
  refine ⟨?_, ?_, ?_, ?_, ?_, ?_, ?_, ?_, ?_, ?_, ?_, ?_⟩ <;> intros <;> simp_all [errClient]

/-- Helper: podA has an owner reference. -/
theorem podA_refs_ne : podA.ownerReferences ≠ [] := by decide

/-- Helper: podB has an owner reference. -/
theorem podB_refs_ne : podB.ownerReferences ≠ [] := by decide

/-- Helper: appending the fixed closing literal of a notFound message
keeps its final character t. -/
theorem getLast_append_lit (X : String) :
    ((X ++ "\x27 doesn\x27t exist").data).getLast? = some 't' := by
  have h2 : ("\x27 doesn\x27t exist").data ≠ [] := by decide
  rw [String.data_append, List.getLast?_append_of_ne_nil _ h2]
  decide

/-- Helper: every rendered notFound message ends with the character t. -/
theorem message_notFound_last (k nm : String) (nso : Option String) :
    (Err.message (Err.notFound k nm nso)).data.getLast? = some 't' := by
  cases nso with
  | none => exact getLast_append_lit _
  | some v => exact getLast_append_lit _

/-- Helper: the rendered unsupported-resource message ends with the
character d. -/
theorem message_unsupported_last :
    (Err.message Err.unsupported).data.getLast? = some 'd' := by decide

/-- Helper: the unsupported-resource message differs from every rendered
notFound message. -/
theorem message_unsupported_ne_notFound (k nm : String) (nso : Option String) :
    Err.message Err.unsupported ≠ Err.message (Err.notFound k nm nso) := by
  intro he
  have h1 := message_unsupported_last
  rw [he, message_notFound_last] at h1
  exact absurd h1 (by decide)

/-- Helper: the Go-style append loop of GetContainers is the name map. -/
theorem foldl_append_names (l : List Container) (acc : List String) :
    l.foldl (fun c i => c ++ [i.name]) acc = acc ++ l.map Container.name := by
  induction l generalizing acc with
  | nil => simp
  | cons x xs ih => simp [ih]

/-- Helper: on a lawful session GetDeploymentFromPod either propagates
the deployment notFound error or succeeds with an object; the defensive
branch never fires. -/
theorem getDeploymentFromPod_cases (client : Client) (pod : Pod)
    (h : pod.ownerReferences ≠ []) (hL : client.clientset.Lawful) :
    client.GetDeploymentFromPod pod h
        = (none, some (Err.notFound "deployment" (pod.ownerReferences.head h).name (some pod.ns)))
      ∨ ((client.GetDeploymentFromPod pod h).1.isSome
          ∧ (client.GetDeploymentFromPod pod h).2 = none) := by
  rcases getDeployment_one client (pod.ownerReferences.head h).name pod.ns hL with
    ⟨hp, he⟩ | ⟨hp, he⟩
  · obtain ⟨d, hd⟩ := Option.isSome_iff_exists.mp hp
    have hfe : client.GetDeployment (pod.ownerReferences.head h).name pod.ns
        = (some d, none) := by rw [← hd, ← he]
    right
    unfold Client.GetDeploymentFromPod
    rw [hfe]
    exact ⟨rfl, rfl⟩
  · obtain ⟨e, hee⟩ := Option.isSome_iff_exists.mp he
    obtain ⟨hfe, hshape⟩ := getDeployment_err_inv client _ _ e hee
    left
    unfold Client.GetDeploymentFromPod
    rw [hfe, hshape]

/-- Helper: on a lawful session GetDaemonsetFromPod either propagates
the daemonset notFound error or succeeds with an object. -/
theorem getDaemonsetFromPod_cases (client : Client) (pod : Pod)
    (h : pod.ownerReferences ≠ []) (hL : client.clientset.Lawful) :
    client.GetDaemonsetFromPod pod h
        = (none, some (Err.notFound "daemonset" (pod.ownerReferences.head h).name (some pod.ns)))
      ∨ ((client.GetDaemonsetFromPod pod h).1.isSome
          ∧ (client.GetDaemonsetFromPod pod h).2 = none) := by
  rcases getDaemonSet_one client (pod.ownerReferences.head h).name pod.ns hL with
    ⟨hp, he⟩ | ⟨hp, he⟩
  · obtain ⟨d, hd⟩ := Option.isSome_iff_exists.mp hp
    have hfe : client.GetDaemonSet (pod.ownerReferences.head h).name pod.ns
        = (some d, none) := by rw [← hd, ← he]
    right
    unfold Client.GetDaemonsetFromPod
    rw [hfe]
    exact ⟨rfl, rfl⟩
  · obtain ⟨e, hee⟩ := Option.isSome_iff_exists.mp he
    obtain ⟨hfe, hshape⟩ := getDaemonSet_err_inv client _ _ e hee
    left
    unfold Client.GetDaemonsetFromPod
    rw [hfe, hshape]

/-- Helper: on a lawful session GetStatefulsetFromPod either propagates
the statefulset notFound error or succeeds with an object. -/
theorem getStatefulsetFromPod_cases (client : Client) (pod : Pod)
    (h : pod.ownerReferences ≠ []) (hL : client.clientset.Lawful) :
    client.GetStatefulsetFromPod pod h
        = (none, some (Err.notFound "statefulset" (pod.ownerReferences.head h).name (some pod.ns)))
      ∨ ((client.GetStatefulsetFromPod pod h).1.isSome
          ∧ (client.GetStatefulsetFromPod pod h).2 = none) := by
  rcases getStatefulSet_one client (pod.ownerReferences.head h).name pod.ns hL with
    ⟨hp, he⟩ | ⟨hp, he⟩
  · obtain ⟨d, hd⟩ := Option.isSome_iff_exists.mp hp
    have hfe : client.GetStatefulSet (pod.ownerReferences.head h).name pod.ns
        = (some d, none) := by rw [← hd, ← he]
    right
    unfold Client.GetStatefulsetFromPod
    rw [hfe]
    exact ⟨rfl, rfl⟩
  · obtain ⟨e, hee⟩ := Option.isSome_iff_exists.mp he
    obtain ⟨hfe, hshape⟩ := getStatefulSet_err_inv client _ _ e hee
    left
    unfold Client.GetStatefulsetFromPod
    rw [hfe, hshape]

/-- Helper: on a lawful session GetReplicasetFromPod either propagates
the replicaset notFound error or succeeds with an object. -/
theorem getReplicasetFromPod_cases (client : Client) (pod : Pod)
    (h : pod.ownerReferences ≠ []) (hL : client.clientset.Lawful) :
    client.GetReplicasetFromPod pod h
        = (none, some (Err.notFound "replicaset" (pod.ownerReferences.head h).name (some pod.ns)))
      ∨ ((client.GetReplicasetFromPod pod h).1.isSome
          ∧ (client.GetReplicasetFromPod pod h).2 = none) := by
  rcases getReplicaSet_one client (pod.ownerReferences.head h).name pod.ns hL with
    ⟨hp, he⟩ | ⟨hp, he⟩
  · obtain ⟨d, hd⟩ := Option.isSome_iff_exists.mp hp
    have hfe : client.GetReplicaSet (pod.ownerReferences.head h).name pod.ns
        = (some d, none) := by rw [← hd, ← he]
    right
    unfold Client.GetReplicasetFromPod
    rw [hfe]
    exact ⟨rfl, rfl⟩
  · obtain ⟨e, hee⟩ := Option.isSome_iff_exists.mp he
    obtain ⟨hfe, hshape⟩ := getReplicaSet_err_inv client _ _ e hee
    left
    unfold Client.GetReplicasetFromPod
    rw [hfe, hshape]

/-- C2: for every name, namespace and backing session state,
GetTarget with the daemonsets tag returns the same result as GetTarget
with the deployments tag — the daemonsets case of the dispatch switch
calls the deployment typed fetch. -/
theorem c2_daemonsets_dispatches_to_deployments (client : Client) (n v : String) :
    client.GetTarget "daemonsets" n v = client.GetTarget "deployments" n v := rfl

/-- C8: GetContainers is pure and total — it returns exactly the ordered
names of the containers declared on the pod specification, of the same
length, and yields the empty sequence on a pod with zero containers. -/
theorem c8_getContainers_names_in_order (pod : Pod) :
    GetContainers pod = pod.spec.containers.map Container.name
    ∧ (GetContainers pod).length = pod.spec.containers.length
    ∧ GetContainers ⟨[], "", ⟨[]⟩⟩ = [] := by
  have hm : GetContainers pod = pod.spec.containers.map Container.name := by
    unfold GetContainers
    simpa using foldl_append_names pod.spec.containers []
  exact ⟨hm, by rw [hm]; simp, rfl⟩

/-- C7 counterexample: the claim that two GetClusterRole calls differing
only in the namespace argument return identical results fails on the
failure path — the Go error message interpolates the supplied namespace,
so the two error values differ. -/
theorem c7_clusterrole_namespace_error_counterexample :
    errClient.GetClusterRole "cr1" "ns1" ≠ errClient.GetClusterRole "cr1" "ns2"
    ∧ (errClient.GetClusterRole "cr1" "ns1").2
        = some (Err.notFound "clusterrole" "cr1" (some "ns1"))
    ∧ (errClient.GetClusterRole "cr1" "ns2").2
        = some (Err.notFound "clusterrole" "cr1" (some "ns2")) := by
  refine ⟨by decide, rfl, rfl⟩

/-- C7 amended: cluster-scoped fetches ignore the supplied namespace for
the underlying read, so the returned object parts are identical across
namespace arguments and an error occurs for one namespace exactly when
it occurs for any other; but the GetClusterRole failure error embeds the
supplied namespace (so the error values differ across namespaces), while
GetNamespace takes no namespace argument at all and its error omits the
namespace clause. -/
theorem c7_cluster_scoped_ignore_namespace (client : Client) (n v1 v2 : String) :
    (client.GetClusterRole n v1).1 = (client.GetClusterRole n v2).1
    ∧ (client.GetClusterRole n v1).2
        = (client.clientset.clusterRoles n).2.map
            (fun _ => Err.notFound "clusterrole" n (some v1))
    ∧ (client.GetNamespace n).2
        = (client.clientset.namespaces n).2.map
            (fun _ => Err.notFound "namespace" n none) := by
  refine ⟨?_, ?_, ?_⟩
  · unfold Client.GetClusterRole
    rcases hs : client.clientset.clusterRoles n with ⟨p, t⟩
    cases t with
    | none => rfl
    | some tv => rfl
  · unfold Client.GetClusterRole
    rcases hs : client.clientset.clusterRoles n with ⟨p, t⟩
    cases t with
    | none => rfl
    | some tv => rfl
  · unfold Client.GetNamespace
    rcases hs : client.clientset.namespaces n with ⟨p, t⟩
    cases t with
    | none => rfl
    | some tv => rfl

/-- C3: for every tag outside the closed eleven-tag enumeration,
GetTarget returns a nil result together with the unsupported-resource
error; the result is the same whatever the session state, so no session
read is observable; and the unsupported-resource error is distinct from
every notFound error a typed fetch can produce, both as a value and as a
rendered message. -/
theorem c3_unsupported_resource_type (client client2 : Client) (tag n v : String)
    (k nm : String) (nso : Option String)
    (h : tag ∉ (["namespaces", "configmaps", "secrets", "deployments", "daemonsets",
        "statefulsets", "replicasets", "services", "serviceaccounts", "roles",
        "clusterroles"] : List String)) :
    client.GetTarget tag n v = (none, some Err.unsupported)
    ∧ client.GetTarget tag n v = client2.GetTarget tag n v
    ∧ Err.unsupported ≠ Err.notFound k nm nso
    ∧ Err.message Err.unsupported ≠ Err.message (Err.notFound k nm nso) := by
  simp only [List.mem_cons, List.not_mem_nil, or_false, not_or] at h
  obtain ⟨h1, h2, h3, h4, h5, h6, h7, h8, h9, h10, h11⟩ := h
  refine ⟨?_, ?_, by simp, message_unsupported_ne_notFound k nm nso⟩
  · unfold Client.GetTarget
    split
    · exact absurd rfl h1
    · exact absurd rfl h2
    · exact absurd rfl h3
    · exact absurd rfl h4
    · exact absurd rfl h5
    · exact absurd rfl h6
    · exact absurd rfl h7
    · exact absurd rfl h8
    · exact absurd rfl h9
    · exact absurd rfl h10
    · exact absurd rfl h11
    · rfl
  · unfold Client.GetTarget
    split
    · exact absurd rfl h1
    · exact absurd rfl h2
    · exact absurd rfl h3
    · exact absurd rfl h4
    · exact absurd rfl h5
    · exact absurd rfl h6
    · exact absurd rfl h7
    · exact absurd rfl h8
    · exact absurd rfl h9
    · exact absurd rfl h10
    · exact absurd rfl h11
    · rfl

/-- C3 witness: the bogus-kind tag is outside the enumeration, and
GetTarget on it yields the unsupported-resource error regardless of the
session, distinct from a notFound error. -/
theorem c3_unsupported_resource_type_witness :
    ("bogus-kind" ∉ (["namespaces", "configmaps", "secrets", "deployments", "daemonsets",
        "statefulsets", "replicasets", "services", "serviceaccounts", "roles",
        "clusterroles"] : List String))
    ∧ okClient.GetTarget "bogus-kind" "n1" "ns1" = (none, some Err.unsupported)
    ∧ okClient.GetTarget "bogus-kind" "n1" "ns1" = errClient.GetTarget "bogus-kind" "n1" "ns1"
    ∧ Err.unsupported ≠ Err.notFound "pod" "n1" (some "ns1")
    ∧ Err.message Err.unsupported ≠ Err.message (Err.notFound "pod" "n1" (some "ns1")) :=
  ⟨by decide,
   c3_unsupported_resource_type okClient errClient "bogus-kind" "n1" "ns1" "pod" "n1"
     (some "ns1") (by decide)⟩

/-- C1 counterexample: a session holding a daemonset named web in ns1
whose deployments store fails; GetTarget with the daemonsets tag does
not return that daemonset — it returns the deployment fetch failure —
so the eleven-tag claim fails at the daemonsets tag. -/
theorem c1_daemonsets_tag_counterexample :
    daemonQuirkClient.clientset.daemonSets "ns1" "web" = (some ⟨77⟩, none)
    ∧ daemonQuirkClient.GetTarget "daemonsets" "web" "ns1"
        = (none, some (Err.notFound "deployment" "web" (some "ns1")))
    ∧ daemonQuirkClient.GetTarget "daemonsets" "web" "ns1"
        ≠ (some (KObj.daemonSetK ⟨77⟩), none) := by
  refine ⟨by decide, by decide, by decide⟩

/-- C1 amended: for the ten tags other than daemonsets, GetTarget
against a session containing an object of that kind under the given
name and namespace returns exactly that object with no error; the
daemonsets tag instead returns the deployment fetched under that name
and namespace (the dispatch quirk recorded in C2). -/
theorem c1_getTarget_returns_fetched_object (client : Client) (n v : String)
    (o1 : Namespace) (o2 : ConfigMap) (o3 : Secret) (o4 : Deployment)
    (o5 : StatefulSet) (o6 : ReplicaSet) (o7 : Service) (o8 : ServiceAccount)
    (o9 : Role) (o10 : ClusterRole)
    (h1 : client.clientset.namespaces n = (some o1, none))
    (h2 : client.clientset.configMaps v n = (some o2, none))
    (h3 : client.clientset.secrets v n = (some o3, none))
    (h4 : client.clientset.deployments v n = (some o4, none))
    (h5 : client.clientset.statefulSets v n = (some o5, none))
    (h6 : client.clientset.replicaSets v n = (some o6, none))
    (h7 : client.clientset.services v n = (some o7, none))
    (h8 : client.clientset.serviceAccounts v n = (some o8, none))
    (h9 : client.clientset.roles v n = (some o9, none))
    (h10 : client.clientset.clusterRoles n = (some o10, none)) :
    client.GetTarget "namespaces" n v = (some (KObj.namespaceK o1), none)
    ∧ client.GetTarget "configmaps" n v = (some (KObj.configMapK o2), none)
    ∧ client.GetTarget "secrets" n v = (some (KObj.secretK o3), none)
    ∧ client.GetTarget "deployments" n v = (some (KObj.deploymentK o4), none)
    ∧ client.GetTarget "daemonsets" n v = (some (KObj.deploymentK o4), none)
    ∧ client.GetTarget "statefulsets" n v = (some (KObj.statefulSetK o5), none)
    ∧ client.GetTarget "replicasets" n v = (some (KObj.replicaSetK o6), none)
    ∧ client.GetTarget "services" n v = (some (KObj.serviceK o7), none)
    ∧ client.GetTarget "serviceaccounts" n v = (some (KObj.serviceAccountK o8), none)
    ∧ client.GetTarget "roles" n v = (some (KObj.roleK o9), none)
    ∧ client.GetTarget "clusterroles" n v = (some (KObj.clusterRoleK o10), none) := by
  refine ⟨?_, ?_, ?_, ?_, ?_, ?_, ?_, ?_, ?_, ?_, ?_⟩
  · show ((client.GetNamespace n).1.map KObj.namespaceK, (client.GetNamespace n).2) = _
    rw [getNamespace_ok client n o1 h1]
    rfl
  · show ((client.GetConfigMap n v).1.map KObj.configMapK, (client.GetConfigMap n v).2) = _
    rw [getConfigMap_ok client n v o2 h2]
    rfl
  · show ((client.GetSecret n v).1.map KObj.secretK, (client.GetSecret n v).2) = _
    rw [getSecret_ok client n v o3 h3]
    rfl
  · show ((client.GetDeployment n v).1.map KObj.deploymentK, (client.GetDeployment n v).2) = _
    rw [getDeployment_ok client n v o4 h4]
    rfl
  · show ((client.GetDeployment n v).1.map KObj.deploymentK, (client.GetDeployment n v).2) = _
    rw [getDeployment_ok client n v o4 h4]
    rfl
  · show ((client.GetStatefulSet n v).1.map KObj.statefulSetK, (client.GetStatefulSet n v).2) = _
    rw [getStatefulSet_ok client n v o5 h5]
    rfl
  · show ((client.GetReplicaSet n v).1.map KObj.replicaSetK, (client.GetReplicaSet n v).2) = _
    rw [getReplicaSet_ok client n v o6 h6]
    rfl
  · show ((client.GetService n v).1.map KObj.serviceK, (client.GetService n v).2) = _
    rw [getService_ok client n v o7 h7]
    rfl
  · show ((client.GetServiceAccount n v).1.map KObj.serviceAccountK, (client.GetServiceAccount n v).2) = _
    rw [getServiceAccount_ok client n v o8 h8]
    rfl
  · show ((client.GetRole n v).1.map KObj.roleK, (client.GetRole n v).2) = _
    rw [getRole_ok client n v o9 h9]
    rfl
  · show ((client.GetClusterRole n v).1.map KObj.clusterRoleK, (client.GetClusterRole n v).2) = _
    rw [getClusterRole_ok client n v o10 h10]
    rfl

/-- C1 witness: the all-success session; the namespaces tag returns the
stored namespace object and the daemonsets tag returns the stored
deployment object. -/
theorem c1_getTarget_returns_fetched_object_witness :
    okClient.clientset.namespaces "n1" = (some ⟨5⟩, none)
    ∧ okClient.clientset.deployments "ns1" "n1" = (some ⟨1⟩, none)
    ∧ okClient.GetTarget "namespaces" "n1" "ns1" = (some (KObj.namespaceK ⟨5⟩), none)
    ∧ okClient.GetTarget "daemonsets" "n1" "ns1" = (some (KObj.deploymentK ⟨1⟩), none) :=
  ⟨rfl, rfl,
   (c1_getTarget_returns_fetched_object okClient "n1" "ns1" ⟨5⟩ ⟨6⟩ ⟨7⟩ ⟨1⟩ ⟨3⟩ ⟨4⟩ ⟨8⟩ ⟨9⟩
      ⟨10⟩ ⟨11⟩ rfl rfl rfl rfl rfl rfl rfl rfl rfl rfl).1,
   (c1_getTarget_returns_fetched_object okClient "n1" "ns1" ⟨5⟩ ⟨6⟩ ⟨7⟩ ⟨1⟩ ⟨3⟩ ⟨4⟩ ⟨8⟩ ⟨9⟩
      ⟨10⟩ ⟨11⟩ rfl rfl rfl rfl rfl rfl rfl rfl rfl rfl).2.2.2.2.1⟩

/-- C6 counterexample: GetClusterRole is cluster-scoped, yet on failure
its returned error message does not omit the namespace clause — it
renders the supplied namespace — so the claim fails at GetClusterRole. -/
theorem c6_clusterrole_namespace_clause_counterexample :
    errClient.GetClusterRole "cr1" "ns1"
        = (none, some (Err.notFound "clusterrole" "cr1" (some "ns1")))
    ∧ (Err.notFound "clusterrole" "cr1" (some "ns1")).message
        = "the clusterrole \x27cr1\x27 in the namespace \x27ns1\x27 doesn\x27t exist"
    ∧ (Err.notFound "clusterrole" "cr1" (some "ns1")).message
        ≠ "the clusterrole \x27cr1\x27 doesn\x27t exist" :=
  ⟨rfl, rfl, by decide⟩

/-- C6 amended: whenever the underlying read of any typed fetch fails,
for whatever transport cause, the fetch returns a nil object and the
single flattened notFound error, whose rendered message is exactly the
Go format string for that kind with the supplied name and namespace; the
namespace clause is omitted only by GetNamespace, while GetClusterRole —
though its read ignores the namespace — interpolates the supplied
namespace into the message. The conclusion does not depend on the
transport errors t1..t12, so the cause is not observable in the result. -/
theorem c6_flattened_fetch_errors (client : Client) (n v : String)
    (p1 : Option Pod) (p2 : Option Deployment) (p3 : Option DaemonSet)
    (p4 : Option StatefulSet) (p5 : Option ReplicaSet) (p6 : Option Namespace)
    (p7 : Option ConfigMap) (p8 : Option Secret) (p9 : Option Service)
    (p10 : Option ServiceAccount) (p11 : Option Role) (p12 : Option ClusterRole)
    (t1 t2 t3 t4 t5 t6 t7 t8 t9 t10 t11 t12 : TransportError)
    (h1 : client.clientset.pods v n = (p1, some t1))
    (h2 : client.clientset.deployments v n = (p2, some t2))
    (h3 : client.clientset.daemonSets v n = (p3, some t3))
    (h4 : client.clientset.statefulSets v n = (p4, some t4))
    (h5 : client.clientset.replicaSets v n = (p5, some t5))
    (h6 : client.clientset.namespaces n = (p6, some t6))
    (h7 : client.clientset.configMaps v n = (p7, some t7))
    (h8 : client.clientset.secrets v n = (p8, some t8))
    (h9 : client.clientset.services v n = (p9, some t9))
    (h10 : client.clientset.serviceAccounts v n = (p10, some t10))
    (h11 : client.clientset.roles v n = (p11, some t11))
    (h12 : client.clientset.clusterRoles n = (p12, some t12)) :
    client.GetPod n v = (none, some (Err.notFound "pod" n (some v)))
    ∧ client.GetDeployment n v = (none, some (Err.notFound "deployment" n (some v)))
    ∧ client.GetDaemonSet n v = (none, some (Err.notFound "daemonset" n (some v)))
    ∧ client.GetStatefulSet n v = (none, some (Err.notFound "statefulset" n (some v)))
    ∧ client.GetReplicaSet n v = (none, some (Err.notFound "replicaset" n (some v)))
    ∧ client.GetNamespace n = (none, some (Err.notFound "namespace" n none))
    ∧ client.GetConfigMap n v = (none, some (Err.notFound "configmap" n (some v)))
    ∧ client.GetSecret n v = (none, some (Err.notFound "secret" n (some v)))
    ∧ client.GetService n v = (none, some (Err.notFound "service" n (some v)))
    ∧ client.GetServiceAccount n v = (none, some (Err.notFound "serviceaccount" n (some v)))
    ∧ client.GetRole n v = (none, some (Err.notFound "role" n (some v)))
    ∧ client.GetClusterRole n v = (none, some (Err.notFound "clusterrole" n (some v)))
    ∧ (Err.notFound "pod" n (some v)).message
        = "the pod \x27" ++ n ++ "\x27 in the namespace \x27" ++ v ++ "\x27 doesn\x27t exist"
    ∧ (Err.notFound "deployment" n (some v)).message
        = "the deployment \x27" ++ n ++ "\x27 in the namespace \x27" ++ v ++ "\x27 doesn\x27t exist"
    ∧ (Err.notFound "daemonset" n (some v)).message
        = "the daemonset \x27" ++ n ++ "\x27 in the namespace \x27" ++ v ++ "\x27 doesn\x27t exist"
    ∧ (Err.notFound "statefulset" n (some v)).message
        = "the statefulset \x27" ++ n ++ "\x27 in the namespace \x27" ++ v ++ "\x27 doesn\x27t exist"
    ∧ (Err.notFound "replicaset" n (some v)).message
        = "the replicaset \x27" ++ n ++ "\x27 in the namespace \x27" ++ v ++ "\x27 doesn\x27t exist"
    ∧ (Err.notFound "namespace" n none).message
        = "the namespace \x27" ++ n ++ "\x27 doesn\x27t exist"
    ∧ (Err.notFound "configmap" n (some v)).message
        = "the configmap \x27" ++ n ++ "\x27 in the namespace \x27" ++ v ++ "\x27 doesn\x27t exist"
    ∧ (Err.notFound "secret" n (some v)).message
        = "the secret \x27" ++ n ++ "\x27 in the namespace \x27" ++ v ++ "\x27 doesn\x27t exist"
    ∧ (Err.notFound "service" n (some v)).message
        = "the service \x27" ++ n ++ "\x27 in the namespace \x27" ++ v ++ "\x27 doesn\x27t exist"
    ∧ (Err.notFound "serviceaccount" n (some v)).message
        = "the serviceaccount \x27" ++ n ++ "\x27 in the namespace \x27" ++ v ++ "\x27 doesn\x27t exist"
    ∧ (Err.notFound "role" n (some v)).message
        = "the role \x27" ++ n ++ "\x27 in the namespace \x27" ++ v ++ "\x27 doesn\x27t exist"
    ∧ (Err.notFound "clusterrole" n (some v)).message
        = "the clusterrole \x27" ++ n ++ "\x27 in the namespace \x27" ++ v ++ "\x27 doesn\x27t exist" :=
  ⟨getPod_err client n v p1 t1 h1, getDeployment_err client n v p2 t2 h2,
   getDaemonSet_err client n v p3 t3 h3, getStatefulSet_err client n v p4 t4 h4,
   getReplicaSet_err client n v p5 t5 h5, getNamespace_err client n p6 t6 h6,
   getConfigMap_err client n v p7 t7 h7, getSecret_err client n v p8 t8 h8,
   getService_err client n v p9 t9 h9, getServiceAccount_err client n v p10 t10 h10,
   getRole_err client n v p11 t11 h11, getClusterRole_err client n v p12 t12 h12,
   rfl, rfl, rfl, rfl, rfl, rfl, rfl, rfl, rfl, rfl, rfl, rfl⟩

/-- C6 witness: the all-failure session; GetPod returns the flattened
pod notFound error. -/
theorem c6_flattened_fetch_errors_witness :
    errClient.clientset.pods "ns1" "n1" = (none, some ⟨42⟩)
    ∧ errClient.GetPod "n1" "ns1" = (none, some (Err.notFound "pod" "n1" (some "ns1"))) :=
  ⟨rfl,
   (c6_flattened_fetch_errors errClient "n1" "ns1" none none none none none none none
      none none none none none ⟨42⟩ ⟨42⟩ ⟨42⟩ ⟨42⟩ ⟨42⟩ ⟨42⟩ ⟨42⟩ ⟨42⟩ ⟨42⟩ ⟨42⟩ ⟨42⟩ ⟨42⟩
      rfl rfl rfl rfl rfl rfl rfl rfl rfl rfl rfl rfl).1⟩

/-- C4: each owner-resolution operation fetches with name equal to the
first owner reference name and namespace equal to the pod namespace,
and when that typed fetch fails it returns exactly the fetch error,
which is always the flattened notFound error of the fetched kind —
never the defensive owner-resolution error. -/
theorem c4_owner_resolution_propagates_fetch_error (client : Client) (pod : Pod)
    (h : pod.ownerReferences ≠ []) (e1 e2 e3 e4 : Err)
    (h1 : (client.GetDeployment (pod.ownerReferences.head h).name pod.ns).2 = some e1)
    (h2 : (client.GetDaemonSet (pod.ownerReferences.head h).name pod.ns).2 = some e2)
    (h3 : (client.GetStatefulSet (pod.ownerReferences.head h).name pod.ns).2 = some e3)
    (h4 : (client.GetReplicaSet (pod.ownerReferences.head h).name pod.ns).2 = some e4) :
    client.GetDeploymentFromPod pod h = (none, some e1)
    ∧ e1 = Err.notFound "deployment" (pod.ownerReferences.head h).name (some pod.ns)
    ∧ client.GetDaemonsetFromPod pod h = (none, some e2)
    ∧ e2 = Err.notFound "daemonset" (pod.ownerReferences.head h).name (some pod.ns)
    ∧ client.GetStatefulsetFromPod pod h = (none, some e3)
    ∧ e3 = Err.notFound "statefulset" (pod.ownerReferences.head h).name (some pod.ns)
    ∧ client.GetReplicasetFromPod pod h = (none, some e4)
    ∧ e4 = Err.notFound "replicaset" (pod.ownerReferences.head h).name (some pod.ns) := by
  obtain ⟨hf1, hs1⟩ := getDeployment_err_inv client _ _ e1 h1
  obtain ⟨hf2, hs2⟩ := getDaemonSet_err_inv client _ _ e2 h2
  obtain ⟨hf3, hs3⟩ := getStatefulSet_err_inv client _ _ e3 h3
  obtain ⟨hf4, hs4⟩ := getReplicaSet_err_inv client _ _ e4 h4
  refine ⟨?_, hs1, ?_, hs2, ?_, hs3, ?_, hs4⟩
  · unfold Client.GetDeploymentFromPod
    rw [hf1]
  · unfold Client.GetDaemonsetFromPod
    rw [hf2]
  · unfold Client.GetStatefulsetFromPod
    rw [hf3]
  · unfold Client.GetReplicasetFromPod
    rw [hf4]

/-- C4 witness: the all-failure session and a pod owned by rs-1 in ns1;
GetDeploymentFromPod propagates the deployment notFound error unchanged. -/
theorem c4_owner_resolution_propagates_fetch_error_witness :
    (errClient.GetDeployment "rs-1" "ns1").2
        = some (Err.notFound "deployment" "rs-1" (some "ns1"))
    ∧ errClient.GetDeploymentFromPod podA podA_refs_ne
        = (none, some (Err.notFound "deployment" "rs-1" (some "ns1"))) :=
  ⟨rfl,
   (c4_owner_resolution_propagates_fetch_error errClient podA podA_refs_ne
      (Err.notFound "deployment" "rs-1" (some "ns1"))
      (Err.notFound "daemonset" "rs-1" (some "ns1"))
      (Err.notFound "statefulset" "rs-1" (some "ns1"))
      (Err.notFound "replicaset" "rs-1" (some "ns1"))
      rfl rfl rfl rfl).1⟩

/-- C5: on a lawful session the owner-resolution operations read only
the first owner reference and the pod namespace: two pods agreeing on
those (whatever their remaining owner references or containers) yield
identical results; the index-zero access itself is guarded by the
non-emptiness precondition carried by the operations. -/
theorem c5_owner_resolution_reads_first_reference_only (client : Client)
    (pod pod2 : Pod)
    (h : pod.ownerReferences ≠ []) (h2 : pod2.ownerReferences ≠ [])
    (hL : client.clientset.Lawful)
    (hhead : pod.ownerReferences.head h = pod2.ownerReferences.head h2)
    (hns : pod.ns = pod2.ns) :
    client.GetDeploymentFromPod pod h = client.GetDeploymentFromPod pod2 h2
    ∧ client.GetDaemonsetFromPod pod h = client.GetDaemonsetFromPod pod2 h2
    ∧ client.GetStatefulsetFromPod pod h = client.GetStatefulsetFromPod pod2 h2
    ∧ client.GetReplicasetFromPod pod h = client.GetReplicasetFromPod pod2 h2 := by
  refine ⟨?_, ?_, ?_, ?_⟩
  · unfold Client.GetDeploymentFromPod
    rw [hhead, hns]
    rcases getDeployment_one client (pod2.ownerReferences.head h2).name pod2.ns hL with
      ⟨hp, he⟩ | ⟨hp, he⟩
    · obtain ⟨d, hd⟩ := Option.isSome_iff_exists.mp hp
      have hfe : client.GetDeployment (pod2.ownerReferences.head h2).name pod2.ns
          = (some d, none) := by rw [← hd, ← he]
      rw [hfe]
    · obtain ⟨e, hee⟩ := Option.isSome_iff_exists.mp he
      have hfe : client.GetDeployment (pod2.ownerReferences.head h2).name pod2.ns
          = (none, some e) := by rw [← hp, ← hee]
      rw [hfe]
  · unfold Client.GetDaemonsetFromPod
    rw [hhead, hns]
    rcases getDaemonSet_one client (pod2.ownerReferences.head h2).name pod2.ns hL with
      ⟨hp, he⟩ | ⟨hp, he⟩
    · obtain ⟨d, hd⟩ := Option.isSome_iff_exists.mp hp
      have hfe : client.GetDaemonSet (pod2.ownerReferences.head h2).name pod2.ns
          = (some d, none) := by rw [← hd, ← he]
      rw [hfe]
    · obtain ⟨e, hee⟩ := Option.isSome_iff_exists.mp he
      have hfe : client.GetDaemonSet (pod2.ownerReferences.head h2).name pod2.ns
          = (none, some e) := by rw [← hp, ← hee]
      rw [hfe]
  · unfold Client.GetStatefulsetFromPod
    rw [hhead, hns]
    rcases getStatefulSet_one client (pod2.ownerReferences.head h2).name pod2.ns hL with
      ⟨hp, he⟩ | ⟨hp, he⟩
    · obtain ⟨d, hd⟩ := Option.isSome_iff_exists.mp hp
      have hfe : client.GetStatefulSet (pod2.ownerReferences.head h2).name pod2.ns
          = (some d, none) := by rw [← hd, ← he]
      rw [hfe]
    · obtain ⟨e, hee⟩ := Option.isSome_iff_exists.mp he
      have hfe : client.GetStatefulSet (pod2.ownerReferences.head h2).name pod2.ns
          = (none, some e) := by rw [← hp, ← hee]
      rw [hfe]
  · unfold Client.GetReplicasetFromPod
    rw [hhead, hns]
    rcases getReplicaSet_one client (pod2.ownerReferences.head h2).name pod2.ns hL with
      ⟨hp, he⟩ | ⟨hp, he⟩
    · obtain ⟨d, hd⟩ := Option.isSome_iff_exists.mp hp
      have hfe : client.GetReplicaSet (pod2.ownerReferences.head h2).name pod2.ns
          = (some d, none) := by rw [← hd, ← he]
      rw [hfe]
    · obtain ⟨e, hee⟩ := Option.isSome_iff_exists.mp he
      have hfe : client.GetReplicaSet (pod2.ownerReferences.head h2).name pod2.ns
          = (none, some e) := by rw [← hp, ← hee]
      rw [hfe]

/-- C5 witness: two pods sharing first owner reference rs-1 and
namespace ns1 but differing in their remaining owner references and
containers resolve to the same deployment. -/
theorem c5_owner_resolution_reads_first_reference_only_witness :
    podA.ownerReferences.head podA_refs_ne = podB.ownerReferences.head podB_refs_ne
    ∧ podA.ns = podB.ns
    ∧ okClient.clientset.Lawful
    ∧ okClient.GetDeploymentFromPod podA podA_refs_ne
        = okClient.GetDeploymentFromPod podB podB_refs_ne :=
  ⟨rfl, rfl, okClient_lawful,
   (c5_owner_resolution_reads_first_reference_only okClient podA podB podA_refs_ne
      podB_refs_ne okClient_lawful rfl rfl).1⟩

/-- C9: on a lawful session every typed fetch returns exactly one of a
present object with no error or no object with an error — no partial
results. -/
theorem c9_no_partial_results (client : Client) (n v : String)
    (hL : client.clientset.Lawful) :
    ExactlyOne (client.GetPod n v) ∧ ExactlyOne (client.GetDeployment n v)
    ∧ ExactlyOne (client.GetDaemonSet n v) ∧ ExactlyOne (client.GetStatefulSet n v)
    ∧ ExactlyOne (client.GetReplicaSet n v) ∧ ExactlyOne (client.GetNamespace n)
    ∧ ExactlyOne (client.GetConfigMap n v) ∧ ExactlyOne (client.GetSecret n v)
    ∧ ExactlyOne (client.GetService n v) ∧ ExactlyOne (client.GetServiceAccount n v)
    ∧ ExactlyOne (client.GetRole n v) ∧ ExactlyOne (client.GetClusterRole n v) :=
  ⟨getPod_one client n v hL, getDeployment_one client n v hL,
   getDaemonSet_one client n v hL, getStatefulSet_one client n v hL,
   getReplicaSet_one client n v hL, getNamespace_one client n hL,
   getConfigMap_one client n v hL, getSecret_one client n v hL,
   getService_one client n v hL, getServiceAccount_one client n v hL,
   getRole_one client n v hL, getClusterRole_one client n v hL⟩

/-- C9 witness: the all-success session is lawful and GetPod on it meets
the exactly-one-outcome contract. -/
theorem c9_no_partial_results_witness :
    okClient.clientset.Lawful ∧ ExactlyOne (okClient.GetPod "n1" "ns1") :=
  ⟨okClient_lawful, (c9_no_partial_results okClient "n1" "ns1" okClient_lawful).1⟩

/-- C10: under the session contract that a read reporting no error
yields a non-nil object, every owner-resolution operation returns either
the propagated notFound error of its typed fetch or a present controller
object, and its error component is never the defensive ownerNotFound
error. -/
theorem c10_defensive_branch_unreachable (client : Client) (pod : Pod)
    (h : pod.ownerReferences ≠ []) (hL : client.clientset.Lawful)
    (k w : String) (q : Pod) :
    (client.GetDeploymentFromPod pod h
        = (none, some (Err.notFound "deployment" (pod.ownerReferences.head h).name (some pod.ns)))
      ∨ ((client.GetDeploymentFromPod pod h).1.isSome
          ∧ (client.GetDeploymentFromPod pod h).2 = none))
    ∧ (client.GetDeploymentFromPod pod h).2 ≠ some (Err.ownerNotFound k q w)
    ∧ (client.GetDaemonsetFromPod pod h
        = (none, some (Err.notFound "daemonset" (pod.ownerReferences.head h).name (some pod.ns)))
      ∨ ((client.GetDaemonsetFromPod pod h).1.isSome
          ∧ (client.GetDaemonsetFromPod pod h).2 = none))
    ∧ (client.GetDaemonsetFromPod pod h).2 ≠ some (Err.ownerNotFound k q w)
    ∧ (client.GetStatefulsetFromPod pod h
        = (none, some (Err.notFound "statefulset" (pod.ownerReferences.head h).name (some pod.ns)))
      ∨ ((client.GetStatefulsetFromPod pod h).1.isSome
          ∧ (client.GetStatefulsetFromPod pod h).2 = none))
    ∧ (client.GetStatefulsetFromPod pod h).2 ≠ some (Err.ownerNotFound k q w)
    ∧ (client.GetReplicasetFromPod pod h
        = (none, some (Err.notFound "replicaset" (pod.ownerReferences.head h).name (some pod.ns)))
      ∨ ((client.GetReplicasetFromPod pod h).1.isSome
          ∧ (client.GetReplicasetFromPod pod h).2 = none))
    ∧ (client.GetReplicasetFromPod pod h).2 ≠ some (Err.ownerNotFound k q w) := by
  refine ⟨getDeploymentFromPod_cases client pod h hL, ?_,
    getDaemonsetFromPod_cases client pod h hL, ?_,
    getStatefulsetFromPod_cases client pod h hL, ?_,
    getReplicasetFromPod_cases client pod h hL, ?_⟩
  · rcases getDeploymentFromPod_cases client pod h hL with hres | ⟨_, hres⟩ <;> simp [hres]
  · rcases getDaemonsetFromPod_cases client pod h hL with hres | ⟨_, hres⟩ <;> simp [hres]
  · rcases getStatefulsetFromPod_cases client pod h hL with hres | ⟨_, hres⟩ <;> simp [hres]
  · rcases getReplicasetFromPod_cases client pod h hL with hres | ⟨_, hres⟩ <;> simp [hres]

/-- C10 witness: on the lawful all-success session, GetDeploymentFromPod
of podA never carries the defensive ownerNotFound error. -/
theorem c10_defensive_branch_unreachable_witness :
    podA.ownerReferences ≠ []
    ∧ okClient.clientset.Lawful
    ∧ (okClient.GetDeploymentFromPod podA podA_refs_ne).2
        ≠ some (Err.ownerNotFound "deployment" podA "ns1") :=
  ⟨podA_refs_ne, okClient_lawful,
   (c10_defensive_branch_unreachable okClient podA podA_refs_ne okClient_lawful
      "deployment" "ns1" podA).2.1⟩

end Falco
